import Mathlib

/-! # Location sets of abstract memory objects

A shallow embedding of `include/MemoryModel/LocationSet.h` (SVF) and the
properties of its value type `LocationSet`: construction, composition
(`operator+`), assignment, the container order (`operator<`), structural
equality (`operator==`), the `std::hash` specialisation, the intersection
query, the relation of two location sets and the helper `gcd`.

Modelling conventions.
* `const Value*` is the identity of an IR value; it is modelled by its address,
  a natural number, so that pointer `==` and `<` are `=` and `<` on `Nat`.
* `Size_t` and `u32_t` are declared in `Util/BasicTypes.h`, outside this header.
  `Size_t` is the integer type of the accumulated constant offset and is
  modelled by `Int` (exact arithmetic); `u32_t` values are natural numbers, and
  converting one to `Size_t` keeps its value.
* `std::vector<const Value*>` is a `List Value`.
* `operator+` returns a local object by value; whether the copy is elided is a
  flag of the embedded function, and the properties are stated for both values.
-/

namespace SVF

/-- Identity of an IR value (`const Value*`), modelled by its address. -/
abbrev Value := Nat

/-- Handle of an IR type (`const Type*`), modelled by its address. -/
abbrev TypeRef := Nat

/-- Modelled from the spec: `Size_t` is declared in `Util/BasicTypes.h`, outside
this header; the spec gives the constant offset as an integer, so the type is
`Int` and its arithmetic is exact. -/
abbrev Size_t := Int

/-- Vector of offset values (`OffsetValueVec`). -/
abbrev OffsetValueVec := List Value

/-- Field information of an aggregate object (`class FlattenedFieldInfo`). -/
structure FlattenedFieldInfo where
  flattenedFldIdx : Nat
  flattenedElemTy : TypeRef
  deriving DecidableEq, Repr

/-- Accessor `getFlattenFldIdx`. -/
def FlattenedFieldInfo.getFlattenFldIdx (fi : FlattenedFieldInfo) : Nat :=
  fi.flattenedFldIdx

/-- Accessor `getFlattenElemTy`. -/
def FlattenedFieldInfo.getFlattenElemTy (fi : FlattenedFieldInfo) : TypeRef :=
  fi.flattenedElemTy

/-- The data members of `class LocationSet`: the accumulated constant offset and
the vector of offset values. -/
structure LocationSet where
  fldIdx : Size_t
  offsetValues : OffsetValueVec
  deriving DecidableEq, Repr

namespace LocationSet

/-- Constructor `LocationSet(Size_t o)`: `fldIdx(o)`, the vector is
default-initialised (empty). -/
def ctor (o : Size_t) : LocationSet :=
  LocationSet.mk o []

/-- Constructor call without argument: the default argument `o = 0`. -/
def ctorDefault : LocationSet :=
  ctor 0

/-- Copy constructor `LocationSet(const LocationSet& ls) : fldIdx(ls.fldIdx)`.
Its member-initialiser list names `fldIdx` only, so `offsetValues` is
default-initialised (empty). -/
def copyCtor (ls : LocationSet) : LocationSet :=
  LocationSet.mk ls.fldIdx []

/-- Constructor `LocationSet(const FlattenedFieldInfo& fi)`:
`fldIdx(fi.getFlattenFldIdx())`, the vector is empty. -/
def ofFieldInfo (fi : FlattenedFieldInfo) : LocationSet :=
  LocationSet.mk (Int.ofNat fi.getFlattenFldIdx) []

/-- Accessor `accumulateConstantFieldIdx`. -/
def accumulateConstantFieldIdx (ls : LocationSet) : Size_t :=
  ls.fldIdx

/-- Mutator `setFldIdx`. -/
def setFldIdx (ls : LocationSet) (idx : Size_t) : LocationSet :=
  LocationSet.mk idx ls.offsetValues

/-- Accessor `getOffsetValueVec`. -/
def getOffsetValueVec (ls : LocationSet) : OffsetValueVec :=
  ls.offsetValues

/-- Modelled from the spec: `addOffsetValue` is declared in the header and
defined elsewhere; the spec describes it as appending the term to the sequence
and returning whether the terms changed. The model returns the updated location
set together with that flag. -/
def addOffsetValue (ls : LocationSet) (offsetValue : Value) : LocationSet × Bool :=
  (LocationSet.mk ls.fldIdx (ls.offsetValues ++ [offsetValue]), true)

/-- The loop of `operator+`: every element of the vector, front to back, is
handed to `addOffsetValue` on the accumulator `ls`. -/
def addAll : OffsetValueVec → LocationSet → LocationSet
  | [], ls => ls
  | v :: vs, ls => addAll vs (ls.addOffsetValue v).1

/-- The statement `return ls;` of a function that returns a `LocationSet` by
value, `ls` being a local object. The language permits, and does not require,
that the copy be elided: the returned object is then `ls` itself. Otherwise it is
constructed from `ls`, and the class, which declares a copy constructor and a
destructor, has no move constructor, so the copy constructor runs. The flag
`elided` says which of the two happens. -/
def returnLocal (elided : Bool) (ls : LocationSet) : LocationSet :=
  if elided then ls else copyCtor ls

/-- Composition `operator+` (`self + rhs`): `ls` is copy-constructed from `rhs`,
`self`'s constant offset is added to it, `self`'s offset values are added one by
one, and `ls` is returned by value (`elided`: whether the copy made by
`return ls;` is elided). -/
def operatorPlus (elided : Bool) (self rhs : LocationSet) : LocationSet :=
  let ls := copyCtor rhs
  let ls := LocationSet.mk (ls.fldIdx + self.accumulateConstantFieldIdx) ls.offsetValues
  returnLocal elided (addAll self.getOffsetValueVec ls)

/-- The `for` loop of `operator<`: while both iterators are inside their
vectors the body runs, and the body returns `(*it) < (*rhsIt)` at once; when the
loop is not entered the function returns `false`. -/
def ltLoop : OffsetValueVec → OffsetValueVec → Bool
  | x :: _, y :: _ => decide (x < y)
  | _, _ => false

/-- Order `operator<` (`self < rhs`). -/
def operatorLt (self rhs : LocationSet) : Bool :=
  if self.fldIdx ≠ rhs.fldIdx then
    decide (self.fldIdx < rhs.fldIdx)
  else
    let pairVec := self.getOffsetValueVec
    let rhsPairVec := rhs.getOffsetValueVec
    if pairVec.length ≠ rhsPairVec.length then
      decide (pairVec.length < rhsPairVec.length)
    else
      ltLoop pairVec rhsPairVec

/-- Element-wise comparison `std::equal` over the first range. -/
def stdEqual : OffsetValueVec → OffsetValueVec → Bool
  | x :: xs, y :: ys => x == y && stdEqual xs ys
  | _, _ => true

/-- Equality of two vectors (`std::vector::operator==`): equal sizes and
equal elements position by position. -/
def vectorEq (xs ys : OffsetValueVec) : Bool :=
  xs.length == ys.length && stdEqual xs ys

/-- Equality `operator==` (`self == rhs`). -/
def operatorEq (self rhs : LocationSet) : Bool :=
  decide (self.fldIdx = rhs.fldIdx) && vectorEq self.offsetValues rhs.offsetValues

/-- The specialisation `std::hash<SVF::LocationSet>`: the pair hash `h` is applied to
the pair made of the constant offset and of the vector hash `v` of the offset
values. Both hash functions are defined outside this header and are parameters;
`h` stands for `SVF::Hash<std::pair<NodeID, NodeID>>` together with the
conversion of the pair handed to it. -/
def stdHash (h : Size_t × Nat → Nat) (v : OffsetValueVec → Nat) (ls : LocationSet) : Nat :=
  h (ls.accumulateConstantFieldIdx, v ls.getOffsetValueVec)

end LocationSet

/-- Name of a `LocationSet` object; two references with the same name alias. -/
abbrev Ref := Nat

/-- Memory holding the `LocationSet` objects of a program. -/
abbrev Store := Ref → LocationSet

/-- Overwrite the object named `x`. -/
def Store.write (s : Store) (x : Ref) (ls : LocationSet) : Store :=
  fun z => if z = x then ls else s z

/-- Assignment `operator=` on the object `self` with argument `rhs`, statement by
statement: `fldIdx = rhs.fldIdx;` then `offsetValues = rhs.getOffsetValueVec();`.
Each statement reads the memory left by the one before it. -/
def operatorAssign (s : Store) (self rhs : Ref) : Store :=
  let s1 := s.write self (LocationSet.mk (s rhs).fldIdx (s self).offsetValues)
  s1.write self (LocationSet.mk (s1 self).fldIdx (s1 rhs).getOffsetValueVec)

/-! ## Relation of two location sets -/

/-- Relation of two location sets (`enum LSRelation`). -/
inductive LocationSet.LSRelation where
  | NonOverlap
  | Overlap
  | Subset
  | Superset
  | Same
  deriving DecidableEq, Repr

/-- Modelled from the spec: `NodeBS` is the bit-vector set type named by the
header and declared outside it; the spec describes the materialised result as a
finite set of offsets, bit-indexed, made for set-intersection tests. -/
abbrev NodeBS := Finset Nat

/-- Modelled from the spec: the set-intersection test of `NodeBS`, true when the
bitwise conjunction of the two sets has a bit set. -/
def NodeBS.intersects (x y : NodeBS) : Bool :=
  decide ((x ∩ y).Nonempty)

namespace LocationSet

/-- The query `intersects` (`self.intersects(RHS)`): both location sets are
materialised and the two results are tested for intersection. The materialiser
`computeAllLocations` is declared in the header and defined elsewhere; it is a
parameter. -/
def intersects (computeAllLocations : LocationSet → NodeBS) (self RHS : LocationSet) : Bool :=
  (computeAllLocations self).intersects (computeAllLocations RHS)

/-- Modelled from the spec: `isConstantOffset` is declared in the header and
defined elsewhere; the spec gives it as true exactly when the location set has
no symbolic term. -/
def isConstantOffset (ls : LocationSet) : Bool :=
  ls.offsetValues.isEmpty

/-- The private helper `gcd` on `unsigned` operands:
`(n2 == 0) ? n1 : gcd (n2, n1 % n2)`. The remainder never exceeds its left
operand, so no operation leaves the range of `unsigned`. -/
def gcd (n1 n2 : Nat) : Nat :=
  if _h : n2 = 0 then n1 else gcd n2 (n1 % n2)
termination_by n2
decreasing_by exact Nat.mod_lt _ (Nat.pos_of_ne_zero (by assumption))

/-- The greatest common divisor of the strides of all terms of a sequence, with
the helper `gcd`, starting from `g`. -/
def gcdOfStrides (strideOf : Value → Nat) : OffsetValueVec → Nat → Nat
  | [], g => g
  | v :: vs, g => gcdOfStrides strideOf vs (gcd g (strideOf v))

/-- Membership of a constant offset in a materialised set. -/
def offsetIn (o : Size_t) (locs : NodeBS) : Bool :=
  decide (0 ≤ o) && decide (o.toNat ∈ locs)

/-- Modelled from the spec: `checkRelation` is declared in the header and defined
elsewhere. The spec's decision procedure, cheapest case first: (1) both location
sets constant: `Same` for equal offsets, else `NonOverlap`; (2) one constant, one
symbolic: the symbolic side is materialised and the constant offset is tested
for membership, `Subset` or `Superset` when contained, else `NonOverlap`;
(3) both symbolic: `NonOverlap` without materialising when the two offsets have
different residues modulo the greatest common divisor of all strides involved,
otherwise both sides are materialised and the sets compared. The stride of a
term and the materialiser come from the layout collaborator and are
parameters. -/
def checkRelation (strideOf : Value → Nat) (computeAllLocations : LocationSet → NodeBS)
    (LHS RHS : LocationSet) : LSRelation :=
  if LHS.isConstantOffset && RHS.isConstantOffset then
    if LHS.accumulateConstantFieldIdx = RHS.accumulateConstantFieldIdx then LSRelation.Same
    else LSRelation.NonOverlap
  else if LHS.isConstantOffset then
    if offsetIn LHS.accumulateConstantFieldIdx (computeAllLocations RHS) then LSRelation.Subset
    else LSRelation.NonOverlap
  else if RHS.isConstantOffset then
    if offsetIn RHS.accumulateConstantFieldIdx (computeAllLocations LHS) then LSRelation.Superset
    else LSRelation.NonOverlap
  else
    let g := gcdOfStrides strideOf RHS.getOffsetValueVec
      (gcdOfStrides strideOf LHS.getOffsetValueVec 0)
    if LHS.accumulateConstantFieldIdx % Int.ofNat g
        ≠ RHS.accumulateConstantFieldIdx % Int.ofNat g then
      LSRelation.NonOverlap
    else
      let lhsLocations := computeAllLocations LHS
      let rhsLocations := computeAllLocations RHS
      if lhsLocations = rhsLocations then LSRelation.Same
      else if lhsLocations ⊆ rhsLocations then LSRelation.Subset
      else if rhsLocations ⊆ lhsLocations then LSRelation.Superset
      else if lhsLocations.intersects rhsLocations then LSRelation.Overlap
      else LSRelation.NonOverlap

end LocationSet

/-! ## Auxiliary facts about the operations -/

theorem LocationSet.addAll_fldIdx (vs : OffsetValueVec) (ls : LocationSet) :
    (LocationSet.addAll vs ls).fldIdx = ls.fldIdx := by
  induction vs generalizing ls with
  | nil => rfl
  | cons v vs ih => simp [LocationSet.addAll, ih, LocationSet.addOffsetValue]

theorem LocationSet.addAll_offsetValues (vs : OffsetValueVec) (ls : LocationSet) :
    (LocationSet.addAll vs ls).offsetValues = ls.offsetValues ++ vs := by
  induction vs generalizing ls with
  | nil => simp [LocationSet.addAll]
  | cons v vs ih => simp [LocationSet.addAll, ih, LocationSet.addOffsetValue]

theorem LocationSet.returnLocal_fldIdx (elided : Bool) (ls : LocationSet) :
    (LocationSet.returnLocal elided ls).fldIdx = ls.fldIdx := by
  cases elided <;> rfl

theorem LocationSet.operatorPlus_fldIdx (elided : Bool) (a b : LocationSet) :
    (LocationSet.operatorPlus elided a b).fldIdx = b.fldIdx + a.fldIdx := by
  simp only [LocationSet.operatorPlus, LocationSet.returnLocal_fldIdx,
    LocationSet.addAll_fldIdx, LocationSet.copyCtor, LocationSet.accumulateConstantFieldIdx]

theorem LocationSet.vectorEq_iff (xs ys : OffsetValueVec) :
    LocationSet.vectorEq xs ys = true ↔ xs = ys := by
  induction xs generalizing ys with
  | nil => cases ys <;> simp [LocationSet.vectorEq, LocationSet.stdEqual]
  | cons x xs ih =>
    cases ys with
    | nil => simp [LocationSet.vectorEq]
    | cons y ys =>
      have h := ih ys
      simp only [LocationSet.vectorEq, Bool.and_eq_true, beq_iff_eq] at h
      simp only [LocationSet.vectorEq, LocationSet.stdEqual, List.length_cons,
        Bool.and_eq_true, beq_iff_eq, List.cons.injEq, Nat.add_right_cancel_iff]
      constructor
      · rintro ⟨hl, hx, hs⟩
        exact ⟨hx, h.mp ⟨hl, hs⟩⟩
      · rintro ⟨hx, hs⟩
        have h2 := h.mpr hs
        exact ⟨h2.1, hx, h2.2⟩

theorem LocationSet.operatorEq_iff (a b : LocationSet) :
    LocationSet.operatorEq a b = true ↔ a = b := by
  cases a with
  | mk i xs =>
    cases b with
    | mk j ys =>
      simp [LocationSet.operatorEq, LocationSet.vectorEq_iff]

theorem LocationSet.ltLoop_self (xs : OffsetValueVec) :
    LocationSet.ltLoop xs xs = false := by
  cases xs <;> simp [LocationSet.ltLoop]

theorem LocationSet.operatorLt_self (a : LocationSet) :
    LocationSet.operatorLt a a = false := by
  simp [LocationSet.operatorLt, LocationSet.getOffsetValueVec, LocationSet.ltLoop_self]

theorem LocationSet.ltLoop_eq_head (xs ys : OffsetValueVec) (h : xs.length = ys.length) :
    LocationSet.ltLoop xs ys = decide (xs.headD 0 < ys.headD 0) := by
  cases xs <;> cases ys <;> simp_all [LocationSet.ltLoop]

theorem LocationSet.operatorLt_iff (a b : LocationSet) :
    LocationSet.operatorLt a b = true ↔
      (a.fldIdx : Int) < b.fldIdx ∨ ((a.fldIdx : Int) = b.fldIdx ∧
        (a.offsetValues.length < b.offsetValues.length ∨
          (a.offsetValues.length = b.offsetValues.length
            ∧ a.offsetValues.headD 0 < b.offsetValues.headD 0))) := by
  by_cases h1 : (a.fldIdx : Int) = b.fldIdx
  · by_cases h2 : a.offsetValues.length = b.offsetValues.length
    · simp [LocationSet.operatorLt, LocationSet.getOffsetValueVec, h1, h2,
        LocationSet.ltLoop_eq_head]
    · simp [LocationSet.operatorLt, LocationSet.getOffsetValueVec, h1, h2]
  · simp [LocationSet.operatorLt, h1]

theorem LocationSet.operatorLt_false_iff (a b : LocationSet) :
    LocationSet.operatorLt a b = false ↔
      ¬ ((a.fldIdx : Int) < b.fldIdx ∨ ((a.fldIdx : Int) = b.fldIdx ∧
        (a.offsetValues.length < b.offsetValues.length ∨
          (a.offsetValues.length = b.offsetValues.length
            ∧ a.offsetValues.headD 0 < b.offsetValues.headD 0)))) := by
  rw [← LocationSet.operatorLt_iff, Bool.not_eq_true]

theorem LocationSet.gcd_eq_natGcd (n1 n2 : Nat) :
    LocationSet.gcd n1 n2 = Nat.gcd n1 n2 := by
  induction n2 using Nat.strong_induction_on generalizing n1 with
  | _ n2 ih =>
    rw [LocationSet.gcd]
    by_cases h : n2 = 0
    · simp [h]
    · rw [dif_neg h, ih (n1 % n2) (Nat.mod_lt _ (Nat.pos_of_ne_zero h)) n2,
        Nat.gcd_comm n1 n2]
      rw [Nat.gcd_comm n2 (n1 % n2)]
      exact (Nat.gcd_rec n2 n1).symm

theorem LocationSet.lexKey_strict_weak_order (i j k : Int) (m n p x y z : Nat) :
    ¬ (i < i ∨ (i = i ∧ (m < m ∨ (m = m ∧ x < x))))
    ∧ ((i < j ∨ (i = j ∧ (m < n ∨ (m = n ∧ x < y)))) →
        ¬ (j < i ∨ (j = i ∧ (n < m ∨ (n = m ∧ y < x)))))
    ∧ ((i < j ∨ (i = j ∧ (m < n ∨ (m = n ∧ x < y)))) →
        (j < k ∨ (j = k ∧ (n < p ∨ (n = p ∧ y < z)))) →
        (i < k ∨ (i = k ∧ (m < p ∨ (m = p ∧ x < z)))))
    ∧ (¬ (i < j ∨ (i = j ∧ (m < n ∨ (m = n ∧ x < y)))) →
        ¬ (j < i ∨ (j = i ∧ (n < m ∨ (n = m ∧ y < x)))) →
        ¬ (j < k ∨ (j = k ∧ (n < p ∨ (n = p ∧ y < z)))) →
        ¬ (k < j ∨ (k = j ∧ (p < n ∨ (p = n ∧ z < y)))) →
        ¬ (i < k ∨ (i = k ∧ (m < p ∨ (m = p ∧ x < z))))
        ∧ ¬ (k < i ∨ (k = i ∧ (p < m ∨ (p = m ∧ z < x))))) := by
  refine ⟨?_, ?_, ?_, ?_⟩
  · omega
  · intro h
    omega
  · intro h1 h2
    omega
  · intro h1 h2 h3 h4
    constructor <;> omega

/-! ## Composition: symbolic terms and constant offset -/

/-- Claim C1, evaluated on the code. With `a = LocationSet(1)` (no offset values)
and `b` holding the single offset value `7`, `a + b` has constant offset `3` and
no offset value at all, whether or not the copy of the returned object is
elided, while `b`'s sequence followed by `a`'s is `[7]`: the copy constructor
used for `ls(rhs)` leaves `rhs`'s offset values behind. When `a` carries the
offset value `5` the result holds `[5]` (copy elided) or nothing (copy made),
never `[7, 5]`. -/
theorem C1_operatorPlus_loses_rhs_offsetValues :
    (∀ elided : Bool,
      LocationSet.operatorPlus elided (LocationSet.ctor 1) (LocationSet.mk 2 [7])
        = LocationSet.mk 3 []
      ∧ (LocationSet.operatorPlus elided (LocationSet.ctor 1) (LocationSet.mk 2 [7])).offsetValues
          ≠ (LocationSet.mk 2 [7]).offsetValues ++ (LocationSet.ctor 1).offsetValues
      ∧ (LocationSet.operatorPlus elided (LocationSet.mk 1 [5]) (LocationSet.mk 2 [7])).offsetValues
          ≠ (LocationSet.mk 2 [7]).offsetValues ++ (LocationSet.mk 1 [5]).offsetValues)
    ∧ (LocationSet.mk 2 [7]).offsetValues ++ (LocationSet.ctor 1).offsetValues = [7]
    ∧ (LocationSet.operatorPlus true (LocationSet.mk 1 [5]) (LocationSet.mk 2 [7])).offsetValues
        = [5]
    ∧ (LocationSet.operatorPlus false (LocationSet.mk 1 [5]) (LocationSet.mk 2 [7])).offsetValues
        = []
    ∧ (LocationSet.mk 2 [7]).offsetValues ++ (LocationSet.mk 1 [5]).offsetValues = [7, 5] := by
  refine ⟨fun elided => ?_, by decide, by decide, by decide, by decide⟩
  cases elided <;> decide

/-- Claim C3. The constant offset of `a + b` is the sum of the constant offsets
of `a` and `b`, whatever offset values the two operands carry and whether or not
the copy of the returned object is elided. -/
theorem C3_operatorPlus_constantOffset (elided : Bool) (a b : LocationSet) :
    (LocationSet.operatorPlus elided a b).accumulateConstantFieldIdx
      = a.accumulateConstantFieldIdx + b.accumulateConstantFieldIdx := by
  simp only [LocationSet.accumulateConstantFieldIdx, LocationSet.operatorPlus_fldIdx]
  exact Int.add_comm _ _

/-- Claim C7. For location sets `a`, `b`, `c` without offset values, the
constant offset of `(a + b) + c` equals that of `a + (b + c)`, whether or not
the copy of the returned object is elided in any of the four compositions. -/
theorem C7_operatorPlus_constantOffset_assoc (e1 e2 e3 e4 : Bool) (a b c : LocationSet)
    (_ha : a.getOffsetValueVec = []) (_hb : b.getOffsetValueVec = [])
    (_hc : c.getOffsetValueVec = []) :
    (LocationSet.operatorPlus e1 (LocationSet.operatorPlus e2 a b) c).accumulateConstantFieldIdx
      = (LocationSet.operatorPlus e3 a
          (LocationSet.operatorPlus e4 b c)).accumulateConstantFieldIdx := by
  simp only [LocationSet.accumulateConstantFieldIdx, LocationSet.operatorPlus_fldIdx]
  exact (Int.add_assoc c.fldIdx b.fldIdx a.fldIdx).symm

/-- Instance of claim C7 at the constant location sets with offsets 1, 2 and 3. -/
theorem C7_operatorPlus_constantOffset_assoc_witness :
    (LocationSet.ctor 1).getOffsetValueVec = []
    ∧ (LocationSet.ctor 2).getOffsetValueVec = []
    ∧ (LocationSet.ctor 3).getOffsetValueVec = []
    ∧ (LocationSet.operatorPlus false
        (LocationSet.operatorPlus false (LocationSet.ctor 1) (LocationSet.ctor 2))
        (LocationSet.ctor 3)).accumulateConstantFieldIdx
      = (LocationSet.operatorPlus false (LocationSet.ctor 1)
          (LocationSet.operatorPlus false (LocationSet.ctor 2)
            (LocationSet.ctor 3))).accumulateConstantFieldIdx :=
  ⟨rfl, rfl, rfl, C7_operatorPlus_constantOffset_assoc false false false false
    (LocationSet.ctor 1) (LocationSet.ctor 2) (LocationSet.ctor 3) rfl rfl rfl⟩

/-! ## Equality, order and hash -/

/-- Claim C2, evaluated on the code. The location sets with constant offset `0`
and offset values `[1, 2]` and `[1, 3]` are not equal under `operator==`, yet
neither is less than the other under `operator<`: the loop of `operator<`
returns in its first iteration and never looks at the second position. -/
theorem C2_operatorLt_equivalent_but_not_operatorEq :
    LocationSet.operatorLt (LocationSet.mk 0 [1, 2]) (LocationSet.mk 0 [1, 3]) = false
    ∧ LocationSet.operatorLt (LocationSet.mk 0 [1, 3]) (LocationSet.mk 0 [1, 2]) = false
    ∧ LocationSet.operatorEq (LocationSet.mk 0 [1, 2]) (LocationSet.mk 0 [1, 3]) = false := by
  decide

/-- Claim C4. `operator==` holds exactly when the constant offsets are equal and
the two sequences of offset values have the same length and the same value at
every position; hence two location sets with equal constant offsets whose
sequences are different orderings of the same values are not equal. -/
theorem C4_operatorEq_structural (a b : LocationSet) :
    (LocationSet.operatorEq a b = true ↔
      a.fldIdx = b.fldIdx
      ∧ a.offsetValues.length = b.offsetValues.length
      ∧ ∀ (i : Nat) (h1 : i < a.offsetValues.length) (h2 : i < b.offsetValues.length),
          a.offsetValues[i] = b.offsetValues[i])
    ∧ (a.fldIdx = b.fldIdx → a.offsetValues.Perm b.offsetValues →
        a.offsetValues ≠ b.offsetValues → LocationSet.operatorEq a b = false) := by
  constructor
  · rw [LocationSet.operatorEq_iff]
    constructor
    · rintro rfl
      exact ⟨rfl, rfl, fun _ _ _ => rfl⟩
    · rintro ⟨hi, hl, hs⟩
      cases a with
      | mk i xs =>
        cases b with
        | mk j ys =>
          simp only at hi hl hs
          rw [hi, List.ext_getElem hl hs]
  · intro _ _ hne
    cases hb : LocationSet.operatorEq a b with
    | false => rfl
    | true =>
      have hab := (LocationSet.operatorEq_iff a b).mp hb
      exact absurd (congrArg LocationSet.offsetValues hab) hne

/-- Instance of claim C4: offset values `[1, 2]` against `[2, 1]`, equal
constant offsets. -/
theorem C4_operatorEq_structural_witness :
    (LocationSet.mk 0 [1, 2]).fldIdx = (LocationSet.mk 0 [2, 1]).fldIdx
    ∧ (LocationSet.mk 0 [1, 2]).offsetValues.Perm (LocationSet.mk 0 [2, 1]).offsetValues
    ∧ (LocationSet.mk 0 [1, 2]).offsetValues ≠ (LocationSet.mk 0 [2, 1]).offsetValues
    ∧ LocationSet.operatorEq (LocationSet.mk 0 [1, 2]) (LocationSet.mk 0 [2, 1]) = false :=
  ⟨rfl, List.Perm.swap 2 1 [], by decide,
    (C4_operatorEq_structural (LocationSet.mk 0 [1, 2]) (LocationSet.mk 0 [2, 1])).2 rfl
      (List.Perm.swap 2 1 []) (by decide)⟩

/-- Claim C5. Two location sets that are equal under `operator==` have the same
`std::hash` value, for any pair hash `h` and any vector hash `v`. -/
theorem C5_stdHash_eq_of_operatorEq (h : Size_t × Nat → Nat) (v : OffsetValueVec → Nat)
    (a b : LocationSet) (heq : LocationSet.operatorEq a b = true) :
    LocationSet.stdHash h v a = LocationSet.stdHash h v b := by
  rw [(LocationSet.operatorEq_iff a b).mp heq]

/-- Instance of claim C5: the pair hash `p.1.natAbs + 31 * p.2`, the vector hash
`List.sum`, and two location sets with constant offset 3 and offset values
`[1, 2]`. -/
theorem C5_stdHash_eq_of_operatorEq_witness :
    LocationSet.operatorEq (LocationSet.mk 3 [1, 2]) (LocationSet.mk 3 [1, 2]) = true
    ∧ LocationSet.stdHash (fun p => p.1.natAbs + 31 * p.2) List.sum (LocationSet.mk 3 [1, 2])
      = LocationSet.stdHash (fun p => p.1.natAbs + 31 * p.2) List.sum (LocationSet.mk 3 [1, 2]) :=
  ⟨by decide, C5_stdHash_eq_of_operatorEq (fun p => p.1.natAbs + 31 * p.2) List.sum
    (LocationSet.mk 3 [1, 2]) (LocationSet.mk 3 [1, 2]) (by decide)⟩

/-- Claim C6. When `a == b` holds, neither `a < b` nor `b < a` holds; in
particular `a < a` is false for every `a`. -/
theorem C6_operatorLt_false_of_operatorEq (a b : LocationSet) :
    (LocationSet.operatorEq a b = true →
      LocationSet.operatorLt a b = false ∧ LocationSet.operatorLt b a = false)
    ∧ LocationSet.operatorLt a a = false := by
  refine ⟨fun heq => ?_, LocationSet.operatorLt_self a⟩
  rw [(LocationSet.operatorEq_iff a b).mp heq]
  exact ⟨LocationSet.operatorLt_self b, LocationSet.operatorLt_self b⟩

/-- Instance of claim C6 at two location sets with constant offset 3 and offset
values `[4, 9]`. -/
theorem C6_operatorLt_false_of_operatorEq_witness :
    LocationSet.operatorEq (LocationSet.mk 3 [4, 9]) (LocationSet.mk 3 [4, 9]) = true
    ∧ LocationSet.operatorLt (LocationSet.mk 3 [4, 9]) (LocationSet.mk 3 [4, 9]) = false
    ∧ LocationSet.operatorLt (LocationSet.mk 3 [4, 9]) (LocationSet.mk 3 [4, 9]) = false :=
  ⟨by decide,
    (C6_operatorLt_false_of_operatorEq (LocationSet.mk 3 [4, 9]) (LocationSet.mk 3 [4, 9])).1
      (by decide)⟩

/-- Claim C8. `operator==` is reflexive, and `a == b` has the same value as
`b == a`. -/
theorem C8_operatorEq_refl_symm (a b : LocationSet) :
    LocationSet.operatorEq a a = true
    ∧ LocationSet.operatorEq a b = LocationSet.operatorEq b a := by
  refine ⟨(LocationSet.operatorEq_iff a a).mpr rfl, ?_⟩
  rw [Bool.eq_iff_iff, LocationSet.operatorEq_iff, LocationSet.operatorEq_iff]
  exact eq_comm

/-! ## Construction and assignment -/

/-- Claim C9. `LocationSet(o)` has constant offset `o` and no offset values, the
constructor call without argument has constant offset `0` and no offset values,
and the location set built from the field descriptor `(idx, ty)` has constant
offset `idx`, the value of `getFlattenFldIdx`, and no offset values. -/
theorem C9_constructors (o : Size_t) (idx : Nat) (ty : TypeRef) :
    (LocationSet.ctor o).accumulateConstantFieldIdx = o
    ∧ (LocationSet.ctor o).getOffsetValueVec = []
    ∧ LocationSet.ctorDefault.accumulateConstantFieldIdx = 0
    ∧ LocationSet.ctorDefault.getOffsetValueVec = []
    ∧ (FlattenedFieldInfo.mk idx ty).getFlattenFldIdx = idx
    ∧ (LocationSet.ofFieldInfo (FlattenedFieldInfo.mk idx ty)).accumulateConstantFieldIdx
        = Int.ofNat idx
    ∧ (LocationSet.ofFieldInfo (FlattenedFieldInfo.mk idx ty)).getOffsetValueVec = [] :=
  ⟨rfl, rfl, rfl, rfl, rfl, rfl, rfl⟩

/-- Claim C10. After `a = b` the object `a` equals `b` under `operator==`: it holds
`b`'s constant offset and `b`'s whole sequence of offset values; `b` is
unchanged, and so is every object other than `a`. The objects `a` and `b` may be
the same object. -/
theorem C10_operatorAssign_value_copy (s : Store) (a b : Ref) :
    LocationSet.operatorEq (operatorAssign s a b a) (operatorAssign s a b b) = true
    ∧ (operatorAssign s a b a).fldIdx = (s b).fldIdx
    ∧ (operatorAssign s a b a).offsetValues = (s b).offsetValues
    ∧ operatorAssign s a b b = s b
    ∧ ∀ z : Ref, z ≠ a → operatorAssign s a b z = s z := by
  have hb : operatorAssign s a b b = s b := by
    by_cases h : b = a
    · subst h
      simp [operatorAssign, Store.write, LocationSet.getOffsetValueVec]
    · simp [operatorAssign, Store.write, h]
  have ha : operatorAssign s a b a = s b := by
    by_cases h : b = a
    · subst h
      simp [operatorAssign, Store.write, LocationSet.getOffsetValueVec]
    · simp [operatorAssign, Store.write, h, LocationSet.getOffsetValueVec]
  refine ⟨?_, ?_, ?_, hb, ?_⟩
  · rw [ha, hb]
    exact (LocationSet.operatorEq_iff (s b) (s b)).mpr rfl
  · rw [ha]
  · rw [ha]
  · intro z hz
    simp [operatorAssign, Store.write, hz]

/-- Instance of claim C10: in a memory whose object `n` has constant offset `n`
and offset values `[n]`, after assigning object 1 to object 0 the object 2 is
as before. -/
theorem C10_operatorAssign_value_copy_witness :
    (2 : Ref) ≠ 0
    ∧ operatorAssign (fun n => LocationSet.mk (Int.ofNat n) [n]) 0 1 2
        = LocationSet.mk 2 [2] :=
  ⟨by decide,
    (C10_operatorAssign_value_copy (fun n => LocationSet.mk (Int.ofNat n) [n]) 0 1).2.2.2.2 2
      (by decide)⟩

/-! ## Intersection and relation -/

/-- Claim C11. For any materialiser, `a.intersects(b)` has the same value as
`b.intersects(a)`, and it is true exactly when the materialised offset sets of
`a` and `b` have an offset in common. -/
theorem C11_intersects_symm (computeAllLocations : LocationSet → NodeBS) (a b : LocationSet) :
    LocationSet.intersects computeAllLocations a b
      = LocationSet.intersects computeAllLocations b a
    ∧ (LocationSet.intersects computeAllLocations a b = true ↔
        ∃ o : Nat, o ∈ computeAllLocations a ∧ o ∈ computeAllLocations b) := by
  constructor
  · simp only [LocationSet.intersects, NodeBS.intersects, Finset.inter_comm]
  · simp only [LocationSet.intersects, NodeBS.intersects, decide_eq_true_eq]
    constructor
    · rintro ⟨o, ho⟩
      exact ⟨o, (Finset.mem_inter.mp ho).1, (Finset.mem_inter.mp ho).2⟩
    · rintro ⟨o, h1, h2⟩
      exact ⟨o, Finset.mem_inter.mpr ⟨h1, h2⟩⟩

/-- Claim C12. For two location sets without symbolic terms, `checkRelation` is
`Same` when the constant offsets are equal and `NonOverlap` otherwise, for any
stride table and any materialiser; so the relation of `LocationSet(3)` to
`LocationSet(3)` is `Same` and its relation to `LocationSet(5)` is
`NonOverlap`. -/
theorem C12_checkRelation_constant (strideOf : Value → Nat)
    (computeAllLocations : LocationSet → NodeBS) (a b : LocationSet)
    (ha : a.isConstantOffset = true) (hb : b.isConstantOffset = true) :
    (a.accumulateConstantFieldIdx = b.accumulateConstantFieldIdx →
      LocationSet.checkRelation strideOf computeAllLocations a b
        = LocationSet.LSRelation.Same)
    ∧ (a.accumulateConstantFieldIdx ≠ b.accumulateConstantFieldIdx →
      LocationSet.checkRelation strideOf computeAllLocations a b
        = LocationSet.LSRelation.NonOverlap)
    ∧ LocationSet.checkRelation strideOf computeAllLocations
        (LocationSet.ctor 3) (LocationSet.ctor 3) = LocationSet.LSRelation.Same
    ∧ LocationSet.checkRelation strideOf computeAllLocations
        (LocationSet.ctor 3) (LocationSet.ctor 5) = LocationSet.LSRelation.NonOverlap := by
  refine ⟨fun h => ?_, fun h => ?_, ?_, ?_⟩
  · simp [LocationSet.checkRelation, ha, hb, h]
  · simp [LocationSet.checkRelation, ha, hb, h]
  · simp [LocationSet.checkRelation, LocationSet.isConstantOffset, LocationSet.ctor]
  · simp [LocationSet.checkRelation, LocationSet.isConstantOffset, LocationSet.ctor,
      LocationSet.accumulateConstantFieldIdx]

/-- Instance of claim C12: the constant location sets with offsets 4 and 9, unit
strides, and the materialiser that returns the single constant offset. -/
theorem C12_checkRelation_constant_witness :
    (LocationSet.ctor 4).isConstantOffset = true
    ∧ (LocationSet.ctor 9).isConstantOffset = true
    ∧ (LocationSet.ctor 4).accumulateConstantFieldIdx
        ≠ (LocationSet.ctor 9).accumulateConstantFieldIdx
    ∧ LocationSet.checkRelation (fun _ => 1) (fun ls => {ls.fldIdx.toNat})
        (LocationSet.ctor 4) (LocationSet.ctor 9) = LocationSet.LSRelation.NonOverlap :=
  ⟨rfl, rfl, by decide,
    (C12_checkRelation_constant (fun _ => 1) (fun ls => {ls.fldIdx.toNat})
      (LocationSet.ctor 4) (LocationSet.ctor 9) rfl rfl).2.1 (by decide)⟩

/-! ## The container order -/

/-- Claim C13. `a < b` holds exactly when `a`'s constant offset is smaller, or the
offsets are equal and `a` has fewer offset values, or offsets and lengths are
equal, both sequences are non-empty and `a`'s first offset value is smaller than
`b`'s; the offset values after the first position have no influence on the
result. -/
theorem C13_operatorLt_lexicographic (a b : LocationSet) :
    (LocationSet.operatorLt a b = true ↔
      a.fldIdx < b.fldIdx
      ∨ (a.fldIdx = b.fldIdx ∧ a.offsetValues.length < b.offsetValues.length)
      ∨ (a.fldIdx = b.fldIdx ∧ a.offsetValues.length = b.offsetValues.length
          ∧ ∃ x y : Value, a.offsetValues.head? = some x ∧ b.offsetValues.head? = some y
              ∧ x < y))
    ∧ (∀ (i j : Size_t) (x y : Value) (xs xs2 ys ys2 : OffsetValueVec),
        xs.length = xs2.length → ys.length = ys2.length →
        LocationSet.operatorLt (LocationSet.mk i (x :: xs)) (LocationSet.mk j (y :: ys))
          = LocationSet.operatorLt (LocationSet.mk i (x :: xs2)) (LocationSet.mk j (y :: ys2))) := by
  constructor
  · rw [LocationSet.operatorLt_iff]
    cases a with
    | mk i xs =>
      cases b with
      | mk j ys =>
        cases xs with
        | nil =>
          cases ys with
          | nil => simp
          | cons y ys => simp
        | cons x xs =>
          cases ys with
          | nil => simp
          | cons y ys =>
            simp only [List.length_cons, List.headD_cons, List.head?_cons, Option.some.injEq]
            constructor
            · rintro (h | ⟨h1, h2 | ⟨h2, h3⟩⟩)
              · exact Or.inl h
              · exact Or.inr (Or.inl ⟨h1, h2⟩)
              · exact Or.inr (Or.inr ⟨h1, h2, x, y, rfl, rfl, h3⟩)
            · rintro (h | ⟨h1, h2⟩ | ⟨h1, h2, x2, y2, hx, hy, h3⟩)
              · exact Or.inl h
              · exact Or.inr ⟨h1, Or.inl h2⟩
              · subst hx
                subst hy
                exact Or.inr ⟨h1, Or.inr ⟨h2, h3⟩⟩
  · intro i j x y xs xs2 ys ys2 hx hy
    rw [Bool.eq_iff_iff, LocationSet.operatorLt_iff, LocationSet.operatorLt_iff]
    simp only [List.length_cons, List.headD_cons, hx, hy]

/-- Instance of claim C13: with equal offsets and first offset values 1 and 4,
the second offset values (9 and 2, or 0 and 7) do not matter. -/
theorem C13_operatorLt_lexicographic_witness :
    [9].length = [0].length ∧ [2].length = [7].length
    ∧ LocationSet.operatorLt (LocationSet.mk 5 (1 :: [9])) (LocationSet.mk 5 (4 :: [2]))
      = LocationSet.operatorLt (LocationSet.mk 5 (1 :: [0])) (LocationSet.mk 5 (4 :: [7])) :=
  ⟨rfl, rfl,
    (C13_operatorLt_lexicographic (LocationSet.mk 0 []) (LocationSet.mk 0 [])).2
      5 5 1 4 [9] [0] [2] [7] rfl rfl⟩

/-- Claim C15. `operator<` is a strict weak ordering: no location set is less than
itself, `a < b` excludes `b < a`, `a < b` and `b < c` give `a < c`, and when
neither of `a`, `b` is less than the other and neither of `b`, `c` is less than
the other, then neither of `a`, `c` is less than the other. -/
theorem C15_operatorLt_strict_weak_order (a b c : LocationSet) :
    LocationSet.operatorLt a a = false
    ∧ (LocationSet.operatorLt a b = true → LocationSet.operatorLt b a = false)
    ∧ (LocationSet.operatorLt a b = true → LocationSet.operatorLt b c = true →
        LocationSet.operatorLt a c = true)
    ∧ (LocationSet.operatorLt a b = false → LocationSet.operatorLt b a = false →
        LocationSet.operatorLt b c = false → LocationSet.operatorLt c b = false →
        LocationSet.operatorLt a c = false ∧ LocationSet.operatorLt c a = false) := by
  refine ⟨LocationSet.operatorLt_self a, ?_⟩
  simp only [LocationSet.operatorLt_iff, LocationSet.operatorLt_false_iff]
  exact (LocationSet.lexKey_strict_weak_order a.fldIdx b.fldIdx c.fldIdx
    a.offsetValues.length b.offsetValues.length c.offsetValues.length
    (a.offsetValues.headD 0) (b.offsetValues.headD 0) (c.offsetValues.headD 0)).2

/-- Instance of claim C15: transitivity along offsets 1, 2 and 2, the last two
ordered by their number of offset values. -/
theorem C15_operatorLt_strict_weak_order_witness :
    LocationSet.operatorLt (LocationSet.mk 1 [8]) (LocationSet.mk 2 []) = true
    ∧ LocationSet.operatorLt (LocationSet.mk 2 []) (LocationSet.mk 2 [3]) = true
    ∧ LocationSet.operatorLt (LocationSet.mk 1 [8]) (LocationSet.mk 2 [3]) = true :=
  ⟨by decide, by decide,
    (C15_operatorLt_strict_weak_order (LocationSet.mk 1 [8]) (LocationSet.mk 2 [])
      (LocationSet.mk 2 [3])).2.2.1 (by decide) (by decide)⟩

/-! ## Further facts on construction and composition -/

/-- Claim C14. A location set built from a field descriptor, or by `LocationSet(o)`
with `o` non-negative, has a non-negative constant offset, and the composition
of two location sets with non-negative constant offsets has a non-negative
constant offset, whether or not the copy of the returned object is elided. -/
theorem C14_constantOffset_nonneg (elided : Bool) (o : Size_t) (idx : Nat) (ty : TypeRef)
    (a b : LocationSet) :
    (0 ≤ o → 0 ≤ (LocationSet.ctor o).accumulateConstantFieldIdx)
    ∧ 0 ≤ (LocationSet.ofFieldInfo (FlattenedFieldInfo.mk idx ty)).accumulateConstantFieldIdx
    ∧ (0 ≤ a.accumulateConstantFieldIdx → 0 ≤ b.accumulateConstantFieldIdx →
        0 ≤ (LocationSet.operatorPlus elided a b).accumulateConstantFieldIdx) := by
  refine ⟨fun h => h, Int.ofNat_nonneg idx, fun ha hb => ?_⟩
  simp only [LocationSet.accumulateConstantFieldIdx, LocationSet.operatorPlus_fldIdx] at ha hb ⊢
  exact Int.add_nonneg hb ha

/-- Instance of claim C14: composing the location sets with constant offsets 2
(one offset value) and 0. -/
theorem C14_constantOffset_nonneg_witness :
    0 ≤ (LocationSet.mk 2 [6]).accumulateConstantFieldIdx
    ∧ 0 ≤ (LocationSet.ctor 0).accumulateConstantFieldIdx
    ∧ 0 ≤ (LocationSet.operatorPlus false (LocationSet.mk 2 [6])
        (LocationSet.ctor 0)).accumulateConstantFieldIdx :=
  ⟨by decide, by decide,
    (C14_constantOffset_nonneg false 0 0 0 (LocationSet.mk 2 [6]) (LocationSet.ctor 0)).2.2
      (by decide) (by decide)⟩

/-- Claim C16. The copy constructor keeps the constant offset and yields no
offset values, so the copy of `a` equals `a` under `operator==` exactly when `a`
has no offset values. -/
theorem C16_copyCtor_keeps_offset_only (a : LocationSet) :
    (LocationSet.copyCtor a).accumulateConstantFieldIdx = a.accumulateConstantFieldIdx
    ∧ (LocationSet.copyCtor a).getOffsetValueVec = []
    ∧ (LocationSet.operatorEq (LocationSet.copyCtor a) a = true ↔ a.getOffsetValueVec = []) := by
  refine ⟨rfl, rfl, ?_⟩
  rw [LocationSet.operatorEq_iff]
  cases a with
  | mk i xs =>
    simp only [LocationSet.copyCtor, LocationSet.getOffsetValueVec, LocationSet.mk.injEq,
      true_and]
    exact eq_comm

/-- Claim C17, evaluated on the code. With `a` of constant offset `2` holding the
offset value `6`, `a + LocationSet(0)` built with the copy made by `return ls;`
has constant offset `2` and no offset value, and it is not equal to `a` under
`operator==`: the copy constructor leaves the offset values of `ls` behind. Only
when that copy is elided does the result hold `a`'s offset values and equal
`a`. The constant offset is `a`'s plus `k` in both cases. -/
theorem C17_operatorPlus_constant_rhs_loses_offsetValues :
    LocationSet.operatorPlus false (LocationSet.mk 2 [6]) (LocationSet.ctor 0)
      = LocationSet.mk 2 []
    ∧ (LocationSet.operatorPlus false (LocationSet.mk 2 [6]) (LocationSet.ctor 0)).getOffsetValueVec
        ≠ (LocationSet.mk 2 [6]).getOffsetValueVec
    ∧ LocationSet.operatorEq
        (LocationSet.operatorPlus false (LocationSet.mk 2 [6]) (LocationSet.ctor 0))
        (LocationSet.mk 2 [6]) = false
    ∧ LocationSet.operatorPlus true (LocationSet.mk 2 [6]) (LocationSet.ctor 0)
        = LocationSet.mk 2 [6]
    ∧ (∀ (elided : Bool) (a : LocationSet) (k : Size_t),
        (LocationSet.operatorPlus elided a (LocationSet.ctor k)).accumulateConstantFieldIdx
          = a.accumulateConstantFieldIdx + k) := by
  refine ⟨by decide, by decide, by decide, by decide, fun elided a k => ?_⟩
  simp only [LocationSet.accumulateConstantFieldIdx, LocationSet.operatorPlus_fldIdx,
    LocationSet.ctor]
  exact Int.add_comm _ _

/-! ## The helper `gcd` -/

/-- Claim C18. The helper `gcd` is a total function whose result divides both
arguments and is divided by every common divisor of them; `gcd(n, 0)` and
`gcd(0, n)` are `n`, so `gcd(0, 0)` is `0`; on arguments in the range of
`unsigned` the result is in that range. -/
theorem C18_gcd_greatest_common_divisor (n1 n2 : Nat) :
    LocationSet.gcd n1 n2 ∣ n1
    ∧ LocationSet.gcd n1 n2 ∣ n2
    ∧ (∀ d : Nat, d ∣ n1 → d ∣ n2 → d ∣ LocationSet.gcd n1 n2)
    ∧ LocationSet.gcd n1 0 = n1
    ∧ LocationSet.gcd 0 n1 = n1
    ∧ LocationSet.gcd 0 0 = 0
    ∧ (n1 < 4294967296 → n2 < 4294967296 → LocationSet.gcd n1 n2 < 4294967296) := by
  simp only [LocationSet.gcd_eq_natGcd]
  refine ⟨Nat.gcd_dvd_left n1 n2, Nat.gcd_dvd_right n1 n2,
    fun d h1 h2 => Nat.dvd_gcd h1 h2, Nat.gcd_zero_right n1, Nat.gcd_zero_left n1,
    Nat.gcd_zero_left 0, fun h1 h2 => ?_⟩
  rcases Nat.eq_zero_or_pos n1 with h | h
  · rw [h, Nat.gcd_zero_left]
    exact h2
  · exact Nat.lt_of_le_of_lt (Nat.gcd_le_left n2 h) h1

/-- Instance of claim C18: 3 divides 12 and 18, hence the result of the helper on
12 and 18. -/
theorem C18_gcd_greatest_common_divisor_witness :
    3 ∣ 12 ∧ 3 ∣ 18 ∧ 3 ∣ LocationSet.gcd 12 18 :=
  ⟨by decide, by decide,
    (C18_gcd_greatest_common_divisor 12 18).2.2.1 3 (by decide) (by decide)⟩

end SVF
